import Mathlib

/-!
Shallow embedding of the billing / webhook-reconciliation subsystem of the
stock-signals backend (src/backend/app): the entitlement store (`User.is_paid`),
the Redis-backed idempotency store and rate limiter, the Stripe/Razorpay
service adapters, and the billing router handlers.

External effects are modelled explicitly:
  * the SQLAlchemy session is a `DB` value (list of user rows plus a commit
    counter) threaded through each handler;
  * the Redis client is a `RedisService` value (connected flag plus a keyed
    store), with each operation returning the Python return value together
    with the updated store;
  * outbound provider calls (the Stripe and Razorpay SDKs) are parameters of
    `Except` type, standing for the SDK call either succeeding or raising;
  * signature verification by the provider SDK is a boolean parameter (for
    Stripe, the whole `construct_webhook_event` outcome is the parameter,
    since the SDK both verifies and parses).

Python-specific behaviour is mirrored where the handlers depend on it:
string truthiness (`if user_id:` treats `None` and `""` alike) and `int()`
raising `ValueError` on non-numeric strings.
-/

namespace StockSignals

def pyDigitsAux : List Char → Nat → Option Nat
  | [], acc => some acc
  | c :: cs, acc =>
      if c.isDigit then pyDigitsAux cs (acc * 10 + (c.toNat - 48)) else none

/-- Decimal value of a non-empty all-digit character list, else `none`. -/
def pyDigits : List Char → Option Nat
  | [] => none
  | cs => pyDigitsAux cs 0

/-- Models Python `int(s)` on the strings the handlers meet: an optional
sign followed by one or more decimal digits parses; anything else (e.g.
`"abc"`, `""`) raises `ValueError`, modelled as `none`. -/
def pyInt (s : String) : Option Int :=
  match s.data with
  | '-' :: rest => (pyDigits rest).map (fun n => -(n : Int))
  | '+' :: rest => (pyDigits rest).map (fun n => (n : Int))
  | l => (pyDigits l).map (fun n => (n : Int))

/-- Python truthiness of an optional string: `None` and `""` are falsy. -/
def pyTruthyStr : Option String → Bool
  | none => false
  | some s => s != ""

/-- Python truthiness of an optional integer: `None` and `0` are falsy
(`if ttl:` in `RedisService.set`). -/
def pyTruthyNat : Option Nat → Bool
  | none => false
  | some n => n != 0

/-! ## Entitlement store (app/models/user.py + SQLAlchemy session) -/

/-- A row of the `users` table, restricted to the fields billing touches. -/
structure User where
  id : Nat
  email : String
  is_paid : Bool
  stripe_customer_id : Option String := none
deriving Repr, DecidableEq

/-- The database session: user rows plus a counter of `db.commit()` calls. -/
structure DB where
  users : List User
  commits : Nat := 0
deriving Repr, DecidableEq

/-- `select(User).where(User.id == uid)` followed by `scalar_one_or_none()`. -/
def DB.findUser (db : DB) (uid : Int) : Option User :=
  db.users.find? (fun u => ((u.id : Int) == uid))

/-- `user.is_paid = True` on the row with id `uid` (razorpay paths, which do
not touch the customer reference). -/
def DB.markPaid (db : DB) (uid : Int) : DB :=
  { db with users := db.users.map (fun u =>
      if ((u.id : Int) == uid) then { u with is_paid := true } else u) }

/-- `user.is_paid = True; user.stripe_customer_id = session.customer` on the
row with id `uid` (stripe webhook path). -/
def DB.markPaidStripe (db : DB) (uid : Int) (customer : Option String) : DB :=
  { db with users := db.users.map (fun u =>
      if ((u.id : Int) == uid) then
        { u with is_paid := true, stripe_customer_id := customer }
      else u) }

/-- `await db.commit()`. -/
def DB.commit (db : DB) : DB :=
  { db with commits := db.commits + 1 }

/-! ## Redis (app/services/redis_service.py) -/

/-- A stored Redis value. Redis stores strings; `INCR` reinterprets the value
as an integer, which we keep as a separate constructor so counters stay
arithmetic. -/
inductive RVal where
  | str (s : String)
  | int (n : Nat)
deriving Repr, DecidableEq

/-- The integer reading `INCR` gives a value (non-integer strings never occur
on incremented keys in this codebase; they default to 0 here). -/
def RVal.asInt : RVal → Nat
  | .str s => (s.toNat?).getD 0
  | .int n => n

/-- One key of the Redis store: key, value, remaining TTL (none = persist). -/
structure Entry where
  key : String
  value : RVal
  ttl : Option Nat
deriving Repr, DecidableEq

/-- The Redis client: `self.redis` is either connected or `None`
(`connected = false`), plus the keyed store. -/
structure RedisService where
  connected : Bool
  store : List Entry
deriving Repr, DecidableEq

/-- Replace or create the entry for `k`. -/
def storeUpdate (st : List Entry) (k : String) (v : RVal) (ttl : Option Nat) :
    List Entry :=
  ⟨k, v, ttl⟩ :: st.filter (fun e => e.key != k)

/-- Find the entry for `k`. -/
def RedisService.lookup (r : RedisService) (k : String) : Option Entry :=
  r.store.find? (fun e => e.key == k)

/-- `async def get`: `None` when not connected, else the stored string. -/
def RedisService.get (r : RedisService) (key : String) : Option String :=
  if !r.connected then none
  else match r.lookup key with
    | none => none
    | some e => some (match e.value with | .str s => s | .int n => toString n)

/-- `async def set`: `False` (store untouched) when not connected, else
`setex` when `ttl` is truthy, plain `set` (no TTL) otherwise, returning
`True`. -/
def RedisService.set (r : RedisService) (key value : String)
    (ttl : Option Nat) : Bool × RedisService :=
  if !r.connected then (false, r)
  else if pyTruthyNat ttl then
    (true, { r with store := storeUpdate r.store key (.str value) ttl })
  else
    (true, { r with store := storeUpdate r.store key (.str value) none })

/-- `async def exists`: `False` when not connected, else key presence. -/
def RedisService.existsKey (r : RedisService) (key : String) : Bool :=
  if !r.connected then false
  else (r.lookup key).isSome

/-- `async def incr`: `0` (store untouched) when not connected, else the
atomic increment-and-read; a fresh key is created without TTL, an existing
key keeps its TTL. -/
def RedisService.incr (r : RedisService) (key : String) : Nat × RedisService :=
  if !r.connected then (0, r)
  else
    match r.lookup key with
    | none => (1, { r with store := storeUpdate r.store key (.int 1) none })
    | some e =>
        (e.value.asInt + 1,
         { r with store := storeUpdate r.store key (.int (e.value.asInt + 1)) e.ttl })

/-- `async def expire`: `False` when not connected or the key is absent, else
sets the TTL and returns `True`. -/
def RedisService.expire (r : RedisService) (key : String) (ttl : Nat) :
    Bool × RedisService :=
  if !r.connected then (false, r)
  else match r.lookup key with
    | none => (false, r)
    | some e =>
        (true, { r with store := storeUpdate r.store key e.value (some ttl) })

/-! ## Rate limiter (app/middleware/rate_limit.py) -/

/-- Outcome of `check_rate_limit`: return `True`, or raise HTTP 429. -/
inductive RLResult where
  | allowed
  | rejected (status : Nat) (detail : String)
deriving Repr, DecidableEq

structure RateLimiter where
  max_requests : Nat := 5
  window_seconds : Nat := 60
deriving Repr, DecidableEq

/-- `key = f"ratelimit:{endpoint}:{client_ip}"`. -/
def rateLimitKey (endpoint client_ip : String) : String :=
  "ratelimit:" ++ endpoint ++ ":" ++ client_ip

/-- `RateLimiter.check_rate_limit`: increment, set the window TTL if the
increment produced 1, reject with 429 when the count exceeds the ceiling. -/
def RateLimiter.check_rate_limit (rl : RateLimiter)
    (endpoint client_ip : String) (redis : RedisService) :
    RLResult × RedisService :=
  let key := rateLimitKey endpoint client_ip
  let res := redis.incr key
  let current := res.1
  let r2 := if current == 1 then (res.2.expire key rl.window_seconds).2 else res.2
  if current > rl.max_requests then
    (.rejected 429
      ("Rate limit exceeded. Try again in " ++ toString rl.window_seconds ++
        " seconds."), r2)
  else (.allowed, r2)

/-- The 429 detail string of `check_rate_limit`, carrying the window
length. -/
def rlDetail (rl : RateLimiter) : String :=
  "Rate limit exceeded. Try again in " ++ toString rl.window_seconds ++
    " seconds."

/-- The counter value `INCR` sees for a key (0 when absent). -/
def RedisService.counter (r : RedisService) (k : String) : Nat :=
  match r.lookup k with
  | none => 0
  | some e => e.value.asInt

/-- Redis state after `n` consecutive rate-limited requests from the same
endpoint and client ip. -/
def rlState (rl : RateLimiter) (endpoint client_ip : String)
    (r : RedisService) : Nat → RedisService
  | 0 => r
  | n+1 => (rl.check_rate_limit endpoint client_ip
      (rlState rl endpoint client_ip r n)).2

/-- Outcome of the `(n+1)`-th consecutive rate-limited request. -/
def rlNth (rl : RateLimiter) (endpoint client_ip : String) (r : RedisService)
    (n : Nat) : RLResult :=
  (rl.check_rate_limit endpoint client_ip
    (rlState rl endpoint client_ip r n)).1

/-! ## HTTP-level outcomes -/

/-- How a handler terminates: a JSON body, an `HTTPException`, or an uncaught
Python exception (surfaced by the framework as a 500). -/
inductive Outcome (α : Type) where
  | ok (a : α)
  | httpError (status : Nat) (detail : String)
  | raised (msg : String)
deriving Repr, DecidableEq

/-- The `{"status": ..., "is_paid": ...}` acknowledgment bodies. -/
structure Ack where
  status : String
  is_paid : Option Bool := none
deriving Repr, DecidableEq

/-- Result of a state-touching handler: response plus the two stores. -/
structure WebhookResult where
  response : Outcome Ack
  db : DB
  redis : RedisService
deriving Repr, DecidableEq

/-! ## Service adapters (app/services/stripe_service.py, razorpay_service.py) -/

/-- `StripeService.create_checkout_session`: the `provider` parameter is the
SDK call (`.ok url`, or `.error e` for a `StripeError` with text `e`); a
provider error is re-raised as `Exception("Stripe error: " + str(e))`. -/
def StripeService.create_checkout_session (provider : Except String String) :
    Except String String :=
  match provider with
  | .ok url => .ok url
  | .error e => .error ("Stripe error: " ++ e)

/-- The normalized Razorpay order payload returned by `create_order`. -/
structure RazorpayOrderData where
  order_id : String
  amount : Nat
  currency : String
  key_id : String
deriving Repr, DecidableEq

/-- `RazorpayService.create_order`: raises `"Razorpay not configured"` when
the client is absent; a provider error is re-raised as
`Exception("Razorpay error: " + str(e))`. -/
def RazorpayService.create_order (configured : Bool)
    (provider : Except String RazorpayOrderData) :
    Except String RazorpayOrderData :=
  if !configured then .error "Razorpay not configured"
  else match provider with
    | .ok o => .ok o
    | .error e => .error ("Razorpay error: " ++ e)

/-! ## Checkout endpoints (app/routers/billing.py) -/

/-- Response of a checkout endpoint plus whether an outbound provider call
was attempted. -/
structure CheckoutResult (α : Type) where
  response : Outcome α
  provider_called : Bool
deriving Repr, DecidableEq

/-- `StripeCheckoutResponse`. -/
structure StripeCheckoutResponse where
  gateway : String := "stripe"
  checkout_url : String
deriving Repr, DecidableEq

def alreadySubscribedDetail : String :=
  "User already has an active subscription"

/-- `POST /billing/stripe/create-checkout`. -/
def create_stripe_checkout (current_user : User)
    (provider : Except String String) : CheckoutResult StripeCheckoutResponse :=
  if current_user.is_paid then
    ⟨.httpError 400 alreadySubscribedDetail, false⟩
  else
    match StripeService.create_checkout_session provider with
    | .ok url => ⟨.ok ⟨"stripe", url⟩, true⟩
    | .error e => ⟨.httpError 500 e, true⟩

/-- `POST /billing/razorpay/create-order`. -/
def create_razorpay_order (current_user : User) (configured : Bool)
    (provider : Except String RazorpayOrderData) :
    CheckoutResult RazorpayOrderData :=
  if current_user.is_paid then
    ⟨.httpError 400 alreadySubscribedDetail, false⟩
  else
    match RazorpayService.create_order configured provider with
    | .ok o => ⟨.ok o, configured⟩
    | .error e => ⟨.httpError 500 e, configured⟩

/-- Body of the unified `POST /billing/create-checkout`. -/
inductive UnifiedCheckout where
  | stripe (checkout_url : String)
  | razorpay (order : RazorpayOrderData)
deriving Repr, DecidableEq

/-- `POST /billing/create-checkout`: `gateway or settings.payment_gateway`
selects the adapter, the `is_paid` guard runs before either branch. -/
def create_checkout (current_user : User) (gateway : Option String)
    (default_gateway : String) (rz_configured : Bool)
    (stripe_provider : Except String String)
    (rz_provider : Except String RazorpayOrderData) :
    CheckoutResult UnifiedCheckout :=
  let selected := match gateway with
    | some g => if g != "" then g else default_gateway
    | none => default_gateway
  if current_user.is_paid then
    ⟨.httpError 400 alreadySubscribedDetail, false⟩
  else if selected == "razorpay" then
    match RazorpayService.create_order rz_configured rz_provider with
    | .ok o => ⟨.ok (.razorpay o), rz_configured⟩
    | .error e => ⟨.httpError 500 e, rz_configured⟩
  else
    match StripeService.create_checkout_session stripe_provider with
    | .ok url => ⟨.ok (.stripe url), true⟩
    | .error e => ⟨.httpError 500 e, true⟩

/-! ## Webhook handlers (app/routers/billing.py) -/

/-- The fields of a verified Stripe event the handler reads:
`event.id`, `event.type`, `event.data.object.metadata.get("user_id")`,
`event.data.object.customer`. -/
structure StripeEvent where
  id : String
  type : String
  metadata_user_id : Option String
  customer : Option String
deriving Repr, DecidableEq

/-- The `if event.type == "checkout.session.completed": ...` block of
`stripe_webhook` (billing.py lines 129-140): `.error` models the uncaught
`ValueError` raised by `int(user_id)` on a non-numeric id. -/
def stripeProcess (event : StripeEvent) (db : DB) : Except String DB :=
  if event.type == "checkout.session.completed" then
    if pyTruthyStr event.metadata_user_id then
      match pyInt (event.metadata_user_id.getD "") with
      | none => .error "ValueError: invalid literal for int"
      | some uid =>
        match db.findUser uid with
        | some _ => .ok ((db.markPaidStripe uid event.customer).commit)
        | none => .ok db
    else .ok db
  else .ok db

/-- `POST /billing/stripe/webhook`. `constructed` is the outcome of
`StripeService.construct_webhook_event` (signature verification + parse):
`.error e` models the raised `Exception(e)` caught into a 400. -/
def stripe_webhook (constructed : Except String StripeEvent) (db : DB)
    (redis : RedisService) : WebhookResult :=
  match constructed with
  | .error e => ⟨.httpError 400 e, db, redis⟩
  | .ok event =>
    let event_key := "stripe_event:" ++ event.id
    if redis.existsKey event_key then ⟨.ok ⟨"already_processed", none⟩, db, redis⟩
    else
      match stripeProcess event db with
      | .error e => ⟨.raised e, db, redis⟩
      | .ok db2 =>
        let res := redis.set event_key "processed" (some 86400)
        ⟨.ok ⟨"success", none⟩, db2, res.2⟩

/-- The fields of a parsed Razorpay webhook body the handler reads:
`event.get("event")`, `payload.payment.entity.id`,
`payload.payment.entity.notes.get("user_id")`. -/
structure RazorpayEvent where
  event : Option String
  payment_id : Option String
  notes_user_id : Option String
deriving Repr, DecidableEq

/-- The `if event_id == "payment.captured": ...` block of `razorpay_webhook`
(billing.py lines 234-246): `.error` models the uncaught `ValueError` raised
by `int(user_id)` on a non-numeric id. -/
def razorpayProcess (event : RazorpayEvent) (db : DB) : Except String DB :=
  if event.event == some "payment.captured" then
    if pyTruthyStr event.notes_user_id then
      match pyInt (event.notes_user_id.getD "") with
      | none => .error "ValueError: invalid literal for int"
      | some uid =>
        match db.findUser uid with
        | some _ => .ok ((db.markPaid uid).commit)
        | none => .ok db
    else .ok db
  else .ok db

/-- `POST /billing/razorpay/webhook`. `sig_valid` is
`RazorpayService.verify_webhook_signature(payload, header)`; `parsed` is
`json.loads(payload)` (an uncaught parse error propagates as `raised`). -/
def razorpay_webhook (sig_valid : Bool)
    (parsed : Except String RazorpayEvent) (db : DB) (redis : RedisService) :
    WebhookResult :=
  if !sig_valid then ⟨.httpError 400 "Invalid webhook signature", db, redis⟩
  else match parsed with
  | .error e => ⟨.raised e, db, redis⟩
  | .ok event =>
    if pyTruthyStr event.payment_id then
      let event_key := "razorpay_webhook:" ++ event.payment_id.getD ""
      if redis.existsKey event_key then ⟨.ok ⟨"already_processed", none⟩, db, redis⟩
      else
        match razorpayProcess event db with
        | .error e => ⟨.raised e, db, redis⟩
        | .ok db2 =>
          let res := redis.set event_key "processed" (some 86400)
          ⟨.ok ⟨"success", none⟩, db2, res.2⟩
    else ⟨.ok ⟨"success", none⟩, db, redis⟩

/-- `POST /billing/razorpay/verify-payment`. `sig_valid` is
`RazorpayService.verify_payment_signature(...)`; `user_id` identifies the
authenticated `current_user` row mutated by `current_user.is_paid = True`. -/
def verify_razorpay_payment (payment_id : String) (sig_valid : Bool)
    (user_id : Nat) (db : DB) (redis : RedisService) : WebhookResult :=
  let payment_key := "razorpay_payment:" ++ payment_id
  if redis.existsKey payment_key then
    ⟨.ok ⟨"already_processed", some true⟩, db, redis⟩
  else if !sig_valid then
    ⟨.httpError 400 "Invalid payment signature", db, redis⟩
  else
    let db2 := (db.markPaid (user_id : Int)).commit
    let res := redis.set payment_key "processed" (some 86400)
    ⟨.ok ⟨"success", some true⟩, db2, res.2⟩

/-! ## Helper lemmas -/

/-- `u` paid implies `u'` paid: the per-row monotonicity relation. -/
def PaidUpg (u u' : User) : Prop :=
  u.is_paid = true → u'.is_paid = true

/-- Row-by-row monotonicity of the `is_paid` column between two DB states. -/
def PaidMono (db db' : DB) : Prop :=
  List.Forall₂ PaidUpg db.users db'.users

theorem forall₂_paidUpg_refl : ∀ l : List User, List.Forall₂ PaidUpg l l
  | [] => .nil
  | _ :: t => .cons (fun h => h) (forall₂_paidUpg_refl t)

theorem forall₂_paidUpg_map (f : User → User) (hf : ∀ u, PaidUpg u (f u)) :
    ∀ l : List User, List.Forall₂ PaidUpg l (l.map f)
  | [] => .nil
  | u :: t => .cons (hf u) (forall₂_paidUpg_map f hf t)

theorem paidMono_refl (db : DB) : PaidMono db db :=
  forall₂_paidUpg_refl db.users

theorem paidMono_markPaid (db : DB) (uid : Int) :
    PaidMono db (db.markPaid uid) := by
  apply forall₂_paidUpg_map
  intro u h
  by_cases hc : ((u.id : Int) == uid) = true <;> simp [hc, h]

theorem paidMono_markPaidStripe (db : DB) (uid : Int) (c : Option String) :
    PaidMono db (db.markPaidStripe uid c) := by
  apply forall₂_paidUpg_map
  intro u h
  by_cases hc : ((u.id : Int) == uid) = true <;> simp [hc, h]

theorem paidMono_commit (db db' : DB) (h : PaidMono db db') :
    PaidMono db db'.commit := h

theorem stripeProcessPaidMono (ev : StripeEvent) (db db2 : DB)
    (h : stripeProcess ev db = Except.ok db2) : PaidMono db db2 := by
  unfold stripeProcess at h
  split at h
  · split at h
    · split at h
      · exact absurd h (by simp)
      · split at h
        · cases h
          exact paidMono_commit _ _ (paidMono_markPaidStripe _ _ _)
        · cases h; exact paidMono_refl db
    · cases h; exact paidMono_refl db
  · cases h; exact paidMono_refl db

theorem razorpayProcessPaidMono (ev : RazorpayEvent) (db db2 : DB)
    (h : razorpayProcess ev db = Except.ok db2) : PaidMono db db2 := by
  unfold razorpayProcess at h
  split at h
  · split at h
    · split at h
      · exact absurd h (by simp)
      · split at h
        · cases h
          exact paidMono_commit _ _ (paidMono_markPaid _ _)
        · cases h; exact paidMono_refl db
    · cases h; exact paidMono_refl db
  · cases h; exact paidMono_refl db

theorem lookup_storeUpdate_self (c : Bool) (st : List Entry) (k : String)
    (v : RVal) (t : Option Nat) :
    RedisService.lookup ⟨c, storeUpdate st k v t⟩ k = some ⟨k, v, t⟩ := by
  simp [RedisService.lookup, storeUpdate, List.find?]

theorem set_connected (r : RedisService) (k v : String) (t : Option Nat) :
    ((r.set k v t).2).connected = r.connected := by
  unfold RedisService.set
  by_cases h : r.connected = true <;> by_cases h2 : pyTruthyNat t = true <;>
    simp [h, h2]

theorem set_lookup_self (r : RedisService) (k v : String) (n : Nat)
    (h : r.connected = true) (hn : n ≠ 0) :
    ((r.set k v (some n)).2).lookup k = some ⟨k, .str v, some n⟩ := by
  unfold RedisService.set
  have ht : pyTruthyNat (some n) = true := by simp [pyTruthyNat, hn]
  simp [h, ht]
  exact lookup_storeUpdate_self _ _ _ _ _

theorem existsKey_of_lookup (r : RedisService) (k : String) (e : Entry)
    (hc : r.connected = true) (h : r.lookup k = some e) :
    r.existsKey k = true := by
  simp [RedisService.existsKey, hc, h]

theorem check_split (rl : RateLimiter) (e ip : String) (r : RedisService) :
    rl.check_rate_limit e ip r =
      ((if (r.incr (rateLimitKey e ip)).1 > rl.max_requests then
          .rejected 429 (rlDetail rl) else .allowed),
       (if (r.incr (rateLimitKey e ip)).1 == 1 then
          (((r.incr (rateLimitKey e ip)).2).expire (rateLimitKey e ip)
            rl.window_seconds).2
        else (r.incr (rateLimitKey e ip)).2)) := by
  unfold RateLimiter.check_rate_limit
  dsimp only
  split <;> rfl

theorem incr_fst (r : RedisService) (k : String) (hc : r.connected = true) :
    (r.incr k).1 = r.counter k + 1 := by
  unfold RedisService.incr RedisService.counter
  cases hl : r.lookup k <;> simp [hc, hl]

theorem incr_snd_none (r : RedisService) (k : String) (hc : r.connected = true)
    (hl : r.lookup k = none) :
    (r.incr k).2 = { r with store := storeUpdate r.store k (.int 1) none } := by
  simp [RedisService.incr, hc, hl]

theorem incr_snd_some (r : RedisService) (k : String) (ent : Entry)
    (hc : r.connected = true) (hl : r.lookup k = some ent) :
    (r.incr k).2 =
      { r with store :=
          storeUpdate r.store k (.int (ent.value.asInt + 1)) ent.ttl } := by
  simp [RedisService.incr, hc, hl]

theorem check_fst (rl : RateLimiter) (e ip : String) (r : RedisService)
    (hc : r.connected = true) :
    (rl.check_rate_limit e ip r).1 =
      if rl.max_requests < r.counter (rateLimitKey e ip) + 1 then
        .rejected 429 (rlDetail rl)
      else .allowed := by
  rw [check_split]
  dsimp only
  rw [incr_fst _ _ hc]

theorem check_state_fresh (rl : RateLimiter) (e ip : String)
    (r : RedisService) (hc : r.connected = true)
    (hl : r.lookup (rateLimitKey e ip) = none) :
    ((rl.check_rate_limit e ip r).2).connected = true ∧
    ((rl.check_rate_limit e ip r).2).lookup (rateLimitKey e ip) =
      some ⟨rateLimitKey e ip, .int 1, some rl.window_seconds⟩ := by
  have hf : (r.incr (rateLimitKey e ip)).1 = 1 := by
    rw [incr_fst _ _ hc]
    simp [RedisService.counter, hl]
  rw [check_split]
  dsimp only
  rw [hf, incr_snd_none r _ hc hl]
  simp [RedisService.expire, RedisService.lookup, hc, lookup_storeUpdate_self,
    storeUpdate]

theorem check_state_next (rl : RateLimiter) (e ip : String)
    (r : RedisService) (n : Nat) (t : Option Nat) (hc : r.connected = true)
    (hl : r.lookup (rateLimitKey e ip) =
      some ⟨rateLimitKey e ip, .int (n+1), t⟩) :
    ((rl.check_rate_limit e ip r).2).connected = true ∧
    ((rl.check_rate_limit e ip r).2).lookup (rateLimitKey e ip) =
      some ⟨rateLimitKey e ip, .int (n+2), t⟩ := by
  have hf : (r.incr (rateLimitKey e ip)).1 = n + 2 := by
    rw [incr_fst _ _ hc]
    simp [RedisService.counter, hl, RVal.asInt]
  have hs2 : (r.incr (rateLimitKey e ip)).2 =
      { r with store :=
          storeUpdate r.store (rateLimitKey e ip) (.int (n+2)) t } := by
    simpa [RVal.asInt] using
      incr_snd_some r (rateLimitKey e ip) ⟨rateLimitKey e ip, .int (n+1), t⟩
        hc hl
  have hne : ((n + 2 : Nat) == 1) = false := by
    rw [beq_eq_false_iff_ne]
    omega
  rw [check_split]
  dsimp only
  rw [hf, hs2, hne]
  simp [hc, lookup_storeUpdate_self]

theorem check_counter (rl : RateLimiter) (e ip : String) (r : RedisService)
    (hc : r.connected = true) :
    ((rl.check_rate_limit e ip r).2).counter (rateLimitKey e ip) =
      r.counter (rateLimitKey e ip) + 1 := by
  cases hl : r.lookup (rateLimitKey e ip) with
  | none =>
      simp [RedisService.counter, (check_state_fresh rl e ip r hc hl).2, hl,
        RVal.asInt]
  | some ent =>
      have hf : (r.incr (rateLimitKey e ip)).1 = ent.value.asInt + 1 := by
        rw [incr_fst _ _ hc]
        simp [RedisService.counter, hl]
      rw [check_split]
      dsimp only
      rw [hf, incr_snd_some r _ ent hc hl]
      by_cases hz : ((ent.value.asInt + 1 == 1) = true)
      · rw [if_pos hz]
        simp [RedisService.expire, RedisService.counter, hc,
          lookup_storeUpdate_self, RVal.asInt, hl]
      · rw [if_neg hz]
        simp [RedisService.counter, lookup_storeUpdate_self, RVal.asInt, hl]

theorem rlState_spec (rl : RateLimiter) (e ip : String) (r : RedisService)
    (hc : r.connected = true)
    (hl : r.lookup (rateLimitKey e ip) = none) :
    ∀ n : Nat, (rlState rl e ip r (n+1)).connected = true ∧
      (rlState rl e ip r (n+1)).lookup (rateLimitKey e ip) =
        some ⟨rateLimitKey e ip, .int (n+1), some rl.window_seconds⟩ := by
  intro n
  induction n with
  | zero => simpa [rlState] using check_state_fresh rl e ip r hc hl
  | succ n ih =>
      simpa [rlState] using
        check_state_next rl e ip (rlState rl e ip r (n+1)) n
          (some rl.window_seconds) ih.1 ih.2

theorem rlNth_spec (rl : RateLimiter) (e ip : String) (r : RedisService)
    (hc : r.connected = true)
    (hl : r.lookup (rateLimitKey e ip) = none) :
    ∀ i : Nat, rlNth rl e ip r i =
      if rl.max_requests < i + 1 then .rejected 429 (rlDetail rl)
      else .allowed := by
  intro i
  cases i with
  | zero =>
      have h := check_fst rl e ip r hc
      simp [rlNth, rlState, h, RedisService.counter, hl]
  | succ n =>
      obtain ⟨h1, h2⟩ := rlState_spec rl e ip r hc hl n
      have h := check_fst rl e ip (rlState rl e ip r (n+1)) h1
      simp [rlNth, h, RedisService.counter, h2, RVal.asInt]

theorem stripe_already (ev : StripeEvent) (db : DB) (r : RedisService)
    (hk : r.existsKey ("stripe_event:" ++ ev.id) = true) :
    stripe_webhook (.ok ev) db r = ⟨.ok ⟨"already_processed", none⟩, db, r⟩ := by
  simp [stripe_webhook, hk]

theorem razorpay_already (ev : RazorpayEvent) (db : DB) (r : RedisService)
    (ht : pyTruthyStr ev.payment_id = true)
    (hk : r.existsKey ("razorpay_webhook:" ++ ev.payment_id.getD "") = true) :
    razorpay_webhook true (.ok ev) db r =
      ⟨.ok ⟨"already_processed", none⟩, db, r⟩ := by
  simp [razorpay_webhook, ht, hk]

theorem stripe_success_record (ev : StripeEvent) (db : DB) (r : RedisService)
    (hc : r.connected = true)
    (hs : (stripe_webhook (.ok ev) db r).response = .ok ⟨"success", none⟩) :
    ((stripe_webhook (.ok ev) db r).redis).lookup ("stripe_event:" ++ ev.id) =
      some ⟨"stripe_event:" ++ ev.id, .str "processed", some 86400⟩ ∧
    ((stripe_webhook (.ok ev) db r).redis).connected = true := by
  by_cases hk : r.existsKey ("stripe_event:" ++ ev.id) = true
  · rw [stripe_already ev db r hk] at hs
    exact absurd hs (by simp)
  · have hk2 : r.existsKey ("stripe_event:" ++ ev.id) = false := by
      simpa using hk
    cases hstep : stripeProcess ev db with
    | error e =>
      have heq : stripe_webhook (.ok ev) db r = ⟨.raised e, db, r⟩ := by
        simp [stripe_webhook, hk2, hstep]
      rw [heq] at hs
      exact absurd hs (by simp)
    | ok db2 =>
      have heq : stripe_webhook (.ok ev) db r =
          ⟨.ok ⟨"success", none⟩, db2,
            (r.set ("stripe_event:" ++ ev.id) "processed" (some 86400)).2⟩ := by
        simp [stripe_webhook, hk2, hstep]
      rw [heq]
      refine ⟨set_lookup_self r _ _ 86400 hc (by decide), ?_⟩
      rw [set_connected]
      exact hc

theorem razorpay_success_record (ev : RazorpayEvent) (db : DB)
    (r : RedisService) (hc : r.connected = true)
    (ht : pyTruthyStr ev.payment_id = true)
    (hs : (razorpay_webhook true (.ok ev) db r).response = .ok ⟨"success", none⟩) :
    ((razorpay_webhook true (.ok ev) db r).redis).lookup
        ("razorpay_webhook:" ++ ev.payment_id.getD "") =
      some ⟨"razorpay_webhook:" ++ ev.payment_id.getD "", .str "processed",
        some 86400⟩ ∧
    ((razorpay_webhook true (.ok ev) db r).redis).connected = true := by
  by_cases hk : r.existsKey ("razorpay_webhook:" ++ ev.payment_id.getD "") = true
  · rw [razorpay_already ev db r ht hk] at hs
    exact absurd hs (by simp)
  · have hk2 : r.existsKey ("razorpay_webhook:" ++ ev.payment_id.getD "") =
        false := by simpa using hk
    cases hstep : razorpayProcess ev db with
    | error e =>
      have heq : razorpay_webhook true (.ok ev) db r = ⟨.raised e, db, r⟩ := by
        simp [razorpay_webhook, ht, hk2, hstep]
      rw [heq] at hs
      exact absurd hs (by simp)
    | ok db2 =>
      have heq : razorpay_webhook true (.ok ev) db r =
          ⟨.ok ⟨"success", none⟩, db2,
            (r.set ("razorpay_webhook:" ++ ev.payment_id.getD "") "processed"
              (some 86400)).2⟩ := by
        simp [razorpay_webhook, ht, hk2, hstep]
      rw [heq]
      refine ⟨set_lookup_self r _ _ 86400 hc (by decide), ?_⟩
      rw [set_connected]
      exact hc

/-! ## Claims -/

/-- C1: a webhook request (Stripe or Razorpay) whose signature fails
verification is rejected with HTTP 400, and neither the entitlement store nor
the idempotency store changes: no `is_paid` mutation, no commit. For Stripe,
signature failure is `construct_webhook_event` raising; for Razorpay it is
`verify_webhook_signature` returning false. -/
theorem claim1_invalid_signature_rejected :
    (∀ (e : String) (db : DB) (r : RedisService),
       stripe_webhook (.error e) db r = ⟨.httpError 400 e, db, r⟩) ∧
    (∀ (parsed : Except String RazorpayEvent) (db : DB) (r : RedisService),
       razorpay_webhook false parsed db r =
         ⟨.httpError 400 "Invalid webhook signature", db, r⟩) :=
  ⟨fun _ _ _ => rfl, fun _ _ _ => rfl⟩

/-- C2: `is_paid` is monotone across the billing handlers: every reachable
path either leaves each row's `is_paid` unchanged or sets it to `true`
(row-by-row `PaidMono`), and on failed signature verification the database is
returned unchanged, so the only mutations happen after a successful
verification. The checkout endpoints (`create_checkout`,
`create_stripe_checkout`, `create_razorpay_order`) take no database session
in this embedding, mirroring that their source never touches `is_paid`. -/
theorem claim2_is_paid_monotone :
    (∀ (constructed : Except String StripeEvent) (db : DB) (r : RedisService),
       PaidMono db (stripe_webhook constructed db r).db) ∧
    (∀ (sig : Bool) (parsed : Except String RazorpayEvent) (db : DB)
       (r : RedisService), PaidMono db (razorpay_webhook sig parsed db r).db) ∧
    (∀ (pid : String) (sig : Bool) (uid : Nat) (db : DB) (r : RedisService),
       PaidMono db (verify_razorpay_payment pid sig uid db r).db) ∧
    (∀ (e : String) (db : DB) (r : RedisService),
       (stripe_webhook (.error e) db r).db = db) ∧
    (∀ (parsed : Except String RazorpayEvent) (db : DB) (r : RedisService),
       (razorpay_webhook false parsed db r).db = db) ∧
    (∀ (pid : String) (uid : Nat) (db : DB) (r : RedisService),
       (verify_razorpay_payment pid false uid db r).db = db) := by
  refine ⟨?_, ?_, ?_, fun _ _ _ => rfl, fun _ _ _ => rfl, ?_⟩
  · intro constructed db r
    cases constructed with
    | error e => exact paidMono_refl db
    | ok ev =>
      simp only [stripe_webhook]
      split
      · exact paidMono_refl db
      · split
        · exact paidMono_refl db
        · exact stripeProcessPaidMono ev db _ (by assumption)
  · intro sig parsed db r
    cases sig with
    | false => exact paidMono_refl db
    | true =>
      cases parsed with
      | error e => exact paidMono_refl db
      | ok ev =>
        simp only [razorpay_webhook]
        split
        · next hb => exact absurd hb (by decide)
        · split
          · split
            · exact paidMono_refl db
            · split
              · exact paidMono_refl db
              · exact razorpayProcessPaidMono ev db _ (by assumption)
          · exact paidMono_refl db
  · intro pid sig uid db r
    simp only [verify_razorpay_payment]
    split
    · exact paidMono_refl db
    · split
      · exact paidMono_refl db
      · exact paidMono_commit _ _ (paidMono_markPaid _ _)
  · intro pid uid db r
    simp only [verify_razorpay_payment]
    split <;> rfl

/-- C7: a user with `is_paid = true` is rejected with HTTP 400
("User already has an active subscription") by every checkout-creation
endpoint, for every requested or configured gateway, before any outbound
provider call (`provider_called = false`), with no other effect. -/
theorem claim7_already_subscribed (u : User) (h : u.is_paid = true) :
    (∀ provider, create_stripe_checkout u provider =
       ⟨.httpError 400 alreadySubscribedDetail, false⟩) ∧
    (∀ configured provider, create_razorpay_order u configured provider =
       ⟨.httpError 400 alreadySubscribedDetail, false⟩) ∧
    (∀ gateway default_gateway rz_configured stripe_provider rz_provider,
       create_checkout u gateway default_gateway rz_configured stripe_provider
           rz_provider =
         ⟨.httpError 400 alreadySubscribedDetail, false⟩) := by
  refine ⟨fun provider => ?_, fun configured provider => ?_,
    fun gw dg cfg sp rp => ?_⟩ <;>
    simp [create_stripe_checkout, create_razorpay_order, create_checkout, h]

theorem claim7_witness :
    (⟨1, "a@b.c", true, none⟩ : User).is_paid = true ∧
    create_stripe_checkout ⟨1, "a@b.c", true, none⟩ (.ok "url") =
      ⟨.httpError 400 alreadySubscribedDetail, false⟩ ∧
    create_checkout ⟨1, "a@b.c", true, none⟩ (some "razorpay") "stripe" true
        (.ok "url") (.ok ⟨"ord", 49900, "INR", "key"⟩) =
      ⟨.httpError 400 alreadySubscribedDetail, false⟩ :=
  ⟨rfl, (claim7_already_subscribed _ rfl).1 _,
    (claim7_already_subscribed _ rfl).2.2 _ _ _ _ _⟩

/-- C9: in `verify_razorpay_payment` the idempotency lookup precedes
signature verification: when the payment id's key is already recorded, the
endpoint returns `{"status": "already_processed", "is_paid": true}` with both
stores unchanged, for every value of the signature-verification outcome
(in particular an invalid signature). -/
theorem claim9_idempotency_before_verification (pid : String) (sig : Bool)
    (uid : Nat) (db : DB) (r : RedisService)
    (h : r.existsKey ("razorpay_payment:" ++ pid) = true) :
    verify_razorpay_payment pid sig uid db r =
      ⟨.ok ⟨"already_processed", some true⟩, db, r⟩ := by
  simp [verify_razorpay_payment, h]

theorem claim9_witness :
    (⟨true, [⟨"razorpay_payment:pay_1", .str "processed", some 86400⟩]⟩ :
        RedisService).existsKey "razorpay_payment:pay_1" = true ∧
    verify_razorpay_payment "pay_1" false 3 ⟨[], 0⟩
        ⟨true, [⟨"razorpay_payment:pay_1", .str "processed", some 86400⟩]⟩ =
      ⟨.ok ⟨"already_processed", some true⟩, ⟨[], 0⟩,
        ⟨true, [⟨"razorpay_payment:pay_1", .str "processed", some 86400⟩]⟩⟩ :=
  ⟨by decide, claim9_idempotency_before_verification "pay_1" false 3 _ _ (by decide)⟩

/-- C10: with the Redis client not connected, every `RedisService` operation
returns its harmless default with the store untouched (`get` → none, `set` →
false, `existsKey` → false, `incr` → 0, `expire` → false); consequently
`check_rate_limit` allows every request and every webhook idempotency check
reports the event as unseen (the already-processed branch is unreachable):
the subsystem fails open. -/
theorem claim10_fails_open (r : RedisService) (h : r.connected = false) :
    (∀ k, r.get k = none) ∧
    (∀ k v ttl, r.set k v ttl = (false, r)) ∧
    (∀ k, r.existsKey k = false) ∧
    (∀ k, r.incr k = (0, r)) ∧
    (∀ k t, r.expire k t = (false, r)) ∧
    (∀ rl e ip, RateLimiter.check_rate_limit rl e ip r = (.allowed, r)) ∧
    (∀ ev db, (stripe_webhook (.ok ev) db r).response ≠
       .ok ⟨"already_processed", none⟩) ∧
    (∀ ev db, (razorpay_webhook true (.ok ev) db r).response ≠
       .ok ⟨"already_processed", none⟩) := by
  refine ⟨fun k => ?_, fun k v ttl => ?_, fun k => ?_, fun k => ?_,
    fun k t => ?_, fun rl e ip => ?_, fun ev db => ?_, fun ev db => ?_⟩
  · simp [RedisService.get, h]
  · simp [RedisService.set, h]
  · simp [RedisService.existsKey, h]
  · simp [RedisService.incr, h]
  · simp [RedisService.expire, h]
  · simp [RateLimiter.check_rate_limit, RedisService.incr, h]
  · have hex : r.existsKey ("stripe_event:" ++ ev.id) = false := by
      simp [RedisService.existsKey, h]
    simp only [stripe_webhook, hex]
    split
    · next hb => exact absurd hb (by decide)
    · split <;> simp
  · have hex : r.existsKey ("razorpay_webhook:" ++ ev.payment_id.getD "") =
        false := by simp [RedisService.existsKey, h]
    simp only [razorpay_webhook]
    split
    · next hb => exact absurd hb (by decide)
    · split
      · split
        · simp_all
        · split <;> simp
      · simp

theorem claim10_witness :
    (⟨false, []⟩ : RedisService).connected = false ∧
    (⟨false, []⟩ : RedisService).get "k" = none ∧
    (⟨false, []⟩ : RedisService).incr "k" = (0, ⟨false, []⟩) ∧
    RateLimiter.check_rate_limit ⟨5, 60⟩ "/auth/login" "1.2.3.4" ⟨false, []⟩ =
      (.allowed, ⟨false, []⟩) :=
  ⟨rfl, (claim10_fails_open _ rfl).1 _, (claim10_fails_open _ rfl).2.2.2.1 _,
    (claim10_fails_open _ rfl).2.2.2.2.2.1 _ _ _⟩

/-- C8 counterexample: the claim says the raw upstream exception text is not
returned verbatim to the client; but for a Stripe SDK error with text
`"boom"`, `create_stripe_checkout` returns HTTP 500 whose detail is
`"Stripe error: " ++ "boom"` — the upstream text appears verbatim in the
client-facing message (dropping the 14-character prefix recovers it). -/
theorem claim8_counterexample :
    create_stripe_checkout ⟨1, "a@b.c", false, none⟩ (.error "boom") =
      ⟨.httpError 500 ("Stripe error: " ++ "boom"), true⟩ ∧
    ("Stripe error: " ++ "boom").drop 14 = "boom" :=
  ⟨rfl, rfl⟩

/-- C8 amended: every provider SDK error during checkout creation is caught
at the adapter boundary and surfaced as the single normalized failure kind
HTTP 500, but the client-facing message embeds the raw upstream exception
text verbatim after a provider-name prefix (`"Stripe error: "` /
`"Razorpay error: "`); it is not withheld from the client. -/
theorem claim8_gateway_error_embeds_text (u : User) (e : String)
    (h : u.is_paid = false) :
    StripeService.create_checkout_session (.error e) =
      .error ("Stripe error: " ++ e) ∧
    RazorpayService.create_order true (.error e) =
      .error ("Razorpay error: " ++ e) ∧
    create_stripe_checkout u (.error e) =
      ⟨.httpError 500 ("Stripe error: " ++ e), true⟩ ∧
    create_razorpay_order u true (.error e) =
      ⟨.httpError 500 ("Razorpay error: " ++ e), true⟩ := by
  refine ⟨rfl, rfl, ?_, ?_⟩ <;>
    simp [create_stripe_checkout, create_razorpay_order,
      StripeService.create_checkout_session, RazorpayService.create_order, h]

theorem claim8_witness :
    (⟨1, "a@b.c", false, none⟩ : User).is_paid = false ∧
    create_stripe_checkout ⟨1, "a@b.c", false, none⟩ (.error "boom") =
      ⟨.httpError 500 ("Stripe error: " ++ "boom"), true⟩ ∧
    create_razorpay_order ⟨1, "a@b.c", false, none⟩ true (.error "boom") =
      ⟨.httpError 500 ("Razorpay error: " ++ "boom"), true⟩ :=
  ⟨rfl, (claim8_gateway_error_embeds_text _ "boom" rfl).2.2.1,
    (claim8_gateway_error_embeds_text _ "boom" rfl).2.2.2⟩

/-- C3: duplicate deliveries are deduplicated: if a first webhook delivery
was processed (connected idempotency store, success acknowledgment, so its
key was recorded), a second delivery carrying the same Stripe event id /
Razorpay payment entity id returns `{"status": "already_processed"}` with
both stores unchanged; and a repeated `verify_razorpay_payment` call whose
payment id is already recorded returns without re-running verification (for
every signature outcome) or changing state. -/
theorem claim3_duplicate_delivery :
    (∀ (ev ev2 : StripeEvent) (db : DB) (r : RedisService),
       r.connected = true → ev2.id = ev.id →
       (stripe_webhook (.ok ev) db r).response = .ok ⟨"success", none⟩ →
       stripe_webhook (.ok ev2) (stripe_webhook (.ok ev) db r).db
           (stripe_webhook (.ok ev) db r).redis =
         ⟨.ok ⟨"already_processed", none⟩, (stripe_webhook (.ok ev) db r).db,
           (stripe_webhook (.ok ev) db r).redis⟩) ∧
    (∀ (ev ev2 : RazorpayEvent) (db : DB) (r : RedisService),
       r.connected = true → pyTruthyStr ev.payment_id = true →
       ev2.payment_id = ev.payment_id →
       (razorpay_webhook true (.ok ev) db r).response = .ok ⟨"success", none⟩ →
       razorpay_webhook true (.ok ev2) (razorpay_webhook true (.ok ev) db r).db
           (razorpay_webhook true (.ok ev) db r).redis =
         ⟨.ok ⟨"already_processed", none⟩,
           (razorpay_webhook true (.ok ev) db r).db,
           (razorpay_webhook true (.ok ev) db r).redis⟩) ∧
    (∀ (pid : String) (sig : Bool) (uid : Nat) (db : DB) (r : RedisService),
       r.existsKey ("razorpay_payment:" ++ pid) = true →
       verify_razorpay_payment pid sig uid db r =
         ⟨.ok ⟨"already_processed", some true⟩, db, r⟩) := by
  refine ⟨?_, ?_, ?_⟩
  · intro ev ev2 db r hc hid hs
    obtain ⟨hl, hc2⟩ := stripe_success_record ev db r hc hs
    apply stripe_already
    rw [hid]
    exact existsKey_of_lookup _ _ _ hc2 hl
  · intro ev ev2 db r hc ht hid hs
    obtain ⟨hl, hc2⟩ := razorpay_success_record ev db r hc ht hs
    apply razorpay_already
    · rw [hid]; exact ht
    · rw [hid]
      exact existsKey_of_lookup _ _ _ hc2 hl
  · intro pid sig uid db r h
    simp [verify_razorpay_payment, h]

theorem claim3_witness :
    ((⟨true, []⟩ : RedisService).connected = true ∧
     (stripe_webhook (.ok ⟨"evt_1", "invoice.paid", none, none⟩) ⟨[], 0⟩
         ⟨true, []⟩).response = .ok ⟨"success", none⟩ ∧
     stripe_webhook (.ok ⟨"evt_1", "invoice.paid", none, none⟩)
         (stripe_webhook (.ok ⟨"evt_1", "invoice.paid", none, none⟩) ⟨[], 0⟩
           ⟨true, []⟩).db
         (stripe_webhook (.ok ⟨"evt_1", "invoice.paid", none, none⟩) ⟨[], 0⟩
           ⟨true, []⟩).redis =
       ⟨.ok ⟨"already_processed", none⟩,
         (stripe_webhook (.ok ⟨"evt_1", "invoice.paid", none, none⟩) ⟨[], 0⟩
           ⟨true, []⟩).db,
         (stripe_webhook (.ok ⟨"evt_1", "invoice.paid", none, none⟩) ⟨[], 0⟩
           ⟨true, []⟩).redis⟩) ∧
    verify_razorpay_payment "pay_9" false 3 ⟨[], 0⟩
        ⟨true, [⟨"razorpay_payment:pay_9", .str "processed", some 86400⟩]⟩ =
      ⟨.ok ⟨"already_processed", some true⟩, ⟨[], 0⟩,
        ⟨true, [⟨"razorpay_payment:pay_9", .str "processed", some 86400⟩]⟩⟩ :=
  ⟨⟨rfl, by decide,
    claim3_duplicate_delivery.1 ⟨"evt_1", "invoice.paid", none, none⟩
      ⟨"evt_1", "invoice.paid", none, none⟩ ⟨[], 0⟩ ⟨true, []⟩ rfl rfl
      (by decide)⟩,
   claim3_duplicate_delivery.2.2 "pay_9" false 3 ⟨[], 0⟩
     ⟨true, [⟨"razorpay_payment:pay_9", .str "processed", some 86400⟩]⟩
     (by decide)⟩

/-- C4 counterexample: the claim says a verified, parsed event whose user-id
reference is missing or non-numeric is a silent no-op that never raises; but
a verified Stripe `checkout.session.completed` event with the non-numeric
user id `"abc"` makes the handler raise an uncaught `ValueError` from
`int(user_id)` (HTTP 500 via the framework), not a success acknowledgment. -/
theorem claim4_counterexample :
    stripe_webhook
        (.ok ⟨"evt_1", "checkout.session.completed", some "abc", none⟩)
        ⟨[], 0⟩ ⟨true, []⟩ =
      ⟨.raised "ValueError: invalid literal for int", ⟨[], 0⟩, ⟨true, []⟩⟩ ∧
    Outcome.raised (α := Ack) "ValueError: invalid literal for int" ≠
      .ok ⟨"success", none⟩ := by
  refine ⟨by decide, by simp⟩

/-- C4 amended: for a webhook payload that passes signature verification and
parses, a *missing* (absent or empty, hence falsy) user-id reference is a
silent no-op — success acknowledgment, entitlement store unchanged; but a
*present non-numeric* user-id in a state-changing event kind makes the
handler raise an uncaught `ValueError` (surfaced as HTTP 500), with the
entitlement store unchanged and no idempotency key recorded. -/
theorem claim4_missing_userid_noop :
    (∀ (ev : StripeEvent) (db : DB) (r : RedisService),
       pyTruthyStr ev.metadata_user_id = false →
       r.existsKey ("stripe_event:" ++ ev.id) = false →
       (stripe_webhook (.ok ev) db r).response = .ok ⟨"success", none⟩ ∧
       (stripe_webhook (.ok ev) db r).db = db) ∧
    (∀ (ev : StripeEvent) (db : DB) (r : RedisService),
       ev.type = "checkout.session.completed" →
       pyTruthyStr ev.metadata_user_id = true →
       pyInt (ev.metadata_user_id.getD "") = none →
       r.existsKey ("stripe_event:" ++ ev.id) = false →
       stripe_webhook (.ok ev) db r =
         ⟨.raised "ValueError: invalid literal for int", db, r⟩) ∧
    (∀ (ev : RazorpayEvent) (db : DB) (r : RedisService),
       pyTruthyStr ev.notes_user_id = false →
       r.existsKey ("razorpay_webhook:" ++ ev.payment_id.getD "") = false →
       (razorpay_webhook true (.ok ev) db r).response = .ok ⟨"success", none⟩ ∧
       (razorpay_webhook true (.ok ev) db r).db = db) ∧
    (∀ (ev : RazorpayEvent) (db : DB) (r : RedisService),
       ev.event = some "payment.captured" →
       pyTruthyStr ev.payment_id = true →
       pyTruthyStr ev.notes_user_id = true →
       pyInt (ev.notes_user_id.getD "") = none →
       r.existsKey ("razorpay_webhook:" ++ ev.payment_id.getD "") = false →
       razorpay_webhook true (.ok ev) db r =
         ⟨.raised "ValueError: invalid literal for int", db, r⟩) := by
  refine ⟨?_, ?_, ?_, ?_⟩
  · intro ev db r ht hk
    have hstep : stripeProcess ev db = .ok db := by
      simp [stripeProcess, ht]
    simp [stripe_webhook, hk, hstep]
  · intro ev db r hty ht hpi hk
    have hstep : stripeProcess ev db =
        .error "ValueError: invalid literal for int" := by
      simp [stripeProcess, hty, ht, hpi]
    simp [stripe_webhook, hk, hstep]
  · intro ev db r ht hk
    have hstep : razorpayProcess ev db = .ok db := by
      simp [razorpayProcess, ht]
    by_cases hp : pyTruthyStr ev.payment_id = true
    · simp [razorpay_webhook, hp, hk, hstep]
    · have hp2 : pyTruthyStr ev.payment_id = false := by simpa using hp
      simp [razorpay_webhook, hp2]
  · intro ev db r hev hp ht hpi hk
    have hstep : razorpayProcess ev db =
        .error "ValueError: invalid literal for int" := by
      simp [razorpayProcess, hev, ht, hpi]
    simp [razorpay_webhook, hp, hk, hstep]

theorem claim4_witness :
    (pyTruthyStr (some "") = false ∧
     (stripe_webhook (.ok ⟨"evt_2", "checkout.session.completed", some "", none⟩)
         ⟨[⟨7, "a@b.c", false, none⟩], 0⟩ ⟨true, []⟩).response =
       .ok ⟨"success", none⟩ ∧
     (stripe_webhook (.ok ⟨"evt_2", "checkout.session.completed", some "", none⟩)
         ⟨[⟨7, "a@b.c", false, none⟩], 0⟩ ⟨true, []⟩).db =
       ⟨[⟨7, "a@b.c", false, none⟩], 0⟩) ∧
    razorpay_webhook true
        (.ok ⟨some "payment.captured", some "pay_1", some "xyz"⟩) ⟨[], 0⟩
        ⟨true, []⟩ =
      ⟨.raised "ValueError: invalid literal for int", ⟨[], 0⟩, ⟨true, []⟩⟩ :=
  ⟨⟨by decide,
    claim4_missing_userid_noop.1 ⟨"evt_2", "checkout.session.completed",
      some "", none⟩ ⟨[⟨7, "a@b.c", false, none⟩], 0⟩ ⟨true, []⟩ (by decide)
      (by decide)⟩,
   claim4_missing_userid_noop.2.2.2 ⟨some "payment.captured", some "pay_1",
     some "xyz"⟩ ⟨[], 0⟩ ⟨true, []⟩ rfl (by decide) (by decide) (by decide)
     (by decide)⟩

/-- C5 counterexample: the claim says every verified webhook payload has its
idempotency key recorded with a 24h TTL before returning; but a verified
Razorpay payload with no payment entity id returns the success
acknowledgment with the idempotency store untouched (here: still empty), so
no key of any TTL is recorded. -/
theorem claim5_counterexample :
    razorpay_webhook true (.ok ⟨some "order.paid", none, none⟩) ⟨[], 0⟩
        ⟨true, []⟩ =
      ⟨.ok ⟨"success", none⟩, ⟨[], 0⟩, ⟨true, []⟩⟩ ∧
    (razorpay_webhook true (.ok ⟨some "order.paid", none, none⟩) ⟨[], 0⟩
        ⟨true, []⟩).redis.store = [] := by
  refine ⟨by decide, by decide⟩

/-- C5 amended: when the idempotency store is connected, every webhook
payload that passes signature verification *and completes with the success
acknowledgment* records its idempotency key with TTL 86400 — for Stripe the
event-id key (regardless of event kind), for Razorpay the payment-entity-id
key (regardless of event kind) but only when the payload carries a truthy
payment entity id; a verified Razorpay payload without a payment entity id
is acknowledged without recording any key. -/
theorem claim5_records_key :
    (∀ (ev : StripeEvent) (db : DB) (r : RedisService),
       r.connected = true →
       (stripe_webhook (.ok ev) db r).response = .ok ⟨"success", none⟩ →
       ((stripe_webhook (.ok ev) db r).redis).lookup ("stripe_event:" ++ ev.id) =
         some ⟨"stripe_event:" ++ ev.id, .str "processed", some 86400⟩) ∧
    (∀ (ev : RazorpayEvent) (db : DB) (r : RedisService),
       r.connected = true → pyTruthyStr ev.payment_id = true →
       (razorpay_webhook true (.ok ev) db r).response = .ok ⟨"success", none⟩ →
       ((razorpay_webhook true (.ok ev) db r).redis).lookup
           ("razorpay_webhook:" ++ ev.payment_id.getD "") =
         some ⟨"razorpay_webhook:" ++ ev.payment_id.getD "", .str "processed",
           some 86400⟩) ∧
    (∀ (ev : RazorpayEvent) (db : DB) (r : RedisService),
       pyTruthyStr ev.payment_id = false →
       razorpay_webhook true (.ok ev) db r = ⟨.ok ⟨"success", none⟩, db, r⟩) := by
  refine ⟨?_, ?_, ?_⟩
  · intro ev db r hc hs
    exact (stripe_success_record ev db r hc hs).1
  · intro ev db r hc ht hs
    exact (razorpay_success_record ev db r hc ht hs).1
  · intro ev db r hp
    simp [razorpay_webhook, hp]

theorem claim5_witness :
    ((stripe_webhook (.ok ⟨"evt_3", "invoice.paid", none, none⟩) ⟨[], 0⟩
        ⟨true, []⟩).redis).lookup "stripe_event:evt_3" =
      some ⟨"stripe_event:evt_3", .str "processed", some 86400⟩ ∧
    ((razorpay_webhook true (.ok ⟨some "order.paid", some "pay_2", none⟩)
        ⟨[], 0⟩ ⟨true, []⟩).redis).lookup "razorpay_webhook:pay_2" =
      some ⟨"razorpay_webhook:pay_2", .str "processed", some 86400⟩ :=
  ⟨claim5_records_key.1 ⟨"evt_3", "invoice.paid", none, none⟩ ⟨[], 0⟩
     ⟨true, []⟩ rfl (by decide),
   claim5_records_key.2.1 ⟨some "order.paid", some "pay_2", none⟩ ⟨[], 0⟩
     ⟨true, []⟩ rfl (by decide) (by decide)⟩

/-- C6: `check_rate_limit` is the fixed-window algorithm. With a connected
store: (i) the outcome is a 429 rejection carrying the window length exactly
when the incremented count exceeds the ceiling, else allow; (ii) each call
increments the key's counter by one; (iii) when the key was absent the
increment yields 1 and the window TTL is set; (iv) when the key held counter
`n+1` the increment yields `n+2` and the TTL is left untouched; (v) starting
from an absent key, each of the first `max_requests` requests is allowed and
the `(max_requests+1)`-th is rejected with 429. -/
theorem claim6_rate_limit_fixed_window :
    (∀ (rl : RateLimiter) (e ip : String) (r : RedisService),
       r.connected = true →
       (rl.check_rate_limit e ip r).1 =
         if rl.max_requests < r.counter (rateLimitKey e ip) + 1 then
           .rejected 429 (rlDetail rl)
         else .allowed) ∧
    (∀ (rl : RateLimiter) (e ip : String) (r : RedisService),
       r.connected = true →
       ((rl.check_rate_limit e ip r).2).counter (rateLimitKey e ip) =
         r.counter (rateLimitKey e ip) + 1) ∧
    (∀ (rl : RateLimiter) (e ip : String) (r : RedisService),
       r.connected = true → r.lookup (rateLimitKey e ip) = none →
       ((rl.check_rate_limit e ip r).2).lookup (rateLimitKey e ip) =
         some ⟨rateLimitKey e ip, .int 1, some rl.window_seconds⟩) ∧
    (∀ (rl : RateLimiter) (e ip : String) (r : RedisService) (n : Nat)
       (t : Option Nat), r.connected = true →
       r.lookup (rateLimitKey e ip) =
         some ⟨rateLimitKey e ip, .int (n+1), t⟩ →
       ((rl.check_rate_limit e ip r).2).lookup (rateLimitKey e ip) =
         some ⟨rateLimitKey e ip, .int (n+2), t⟩) ∧
    (∀ (rl : RateLimiter) (e ip : String) (r : RedisService),
       r.connected = true → r.lookup (rateLimitKey e ip) = none →
       (∀ i : Nat, i < rl.max_requests → rlNth rl e ip r i = .allowed) ∧
       rlNth rl e ip r rl.max_requests = .rejected 429 (rlDetail rl)) := by
  refine ⟨check_fst, check_counter,
    fun rl e ip r hc hl => (check_state_fresh rl e ip r hc hl).2,
    fun rl e ip r n t hc hl => (check_state_next rl e ip r n t hc hl).2,
    ?_⟩
  intro rl e ip r hc hl
  constructor
  · intro i hi
    rw [rlNth_spec rl e ip r hc hl i, if_neg]
    omega
  · rw [rlNth_spec rl e ip r hc hl rl.max_requests, if_pos]
    omega

theorem claim6_witness :
    (⟨true, []⟩ : RedisService).connected = true ∧
    (⟨true, []⟩ : RedisService).lookup
      (rateLimitKey "/auth/login" "1.2.3.4") = none ∧
    rlNth ⟨2, 60⟩ "/auth/login" "1.2.3.4" ⟨true, []⟩ 0 = .allowed ∧
    rlNth ⟨2, 60⟩ "/auth/login" "1.2.3.4" ⟨true, []⟩ 1 = .allowed ∧
    rlNth ⟨2, 60⟩ "/auth/login" "1.2.3.4" ⟨true, []⟩ 2 =
      .rejected 429 (rlDetail ⟨2, 60⟩) :=
  ⟨rfl, rfl,
   (claim6_rate_limit_fixed_window.2.2.2.2 ⟨2, 60⟩ "/auth/login" "1.2.3.4"
     ⟨true, []⟩ rfl rfl).1 0 (by decide),
   (claim6_rate_limit_fixed_window.2.2.2.2 ⟨2, 60⟩ "/auth/login" "1.2.3.4"
     ⟨true, []⟩ rfl rfl).1 1 (by decide),
   (claim6_rate_limit_fixed_window.2.2.2.2 ⟨2, 60⟩ "/auth/login" "1.2.3.4"
     ⟨true, []⟩ rfl rfl).2⟩

end StockSignals
